import Mathlib

/-!
Verification development for the authentication session and token-rotation
core of the `beta-ai-video` repository (`auth-api`).

The definitions below are a shallow embedding of the JavaScript source:

* `auth-api/src/services/authService.js` — `loginWithPassword`,
  `refreshSession`;
* `auth-api/src/middlewares/auth.js` — the `auth` request authenticator;
* OAuth controller — `googleCallback`.

The leaf modules the service calls (`utils/jwt`, `utils/crypto`,
`models/sessionModel`, `models/userModel`, `bcrypt`) are not part of the
provided sources; they are modelled from the design document (sections
4.1–4.3) and are marked as such in their doc comments.

Asynchronous store effects are embedded by explicit state passing: every
operation takes the current `Store` and returns the store as of the moment
it finished or threw.  JavaScript exceptions are embedded as `Except`
errors; an `Error` object carrying an ad-hoc `status` field is a
`JsError.tagged` value, any other thrown object (a `TypeError` from a null
dereference, a JWT verification error) is `JsError.untagged`.
-/

namespace AuthCore

/-- JavaScript exception values thrown by the service: `tagged` is an
`Error` with an ad-hoc `status` field attached (as in
`err.status = 401`), `untagged` is any other exception (a `TypeError`, a
JWT library error) that carries no `status`. -/
inductive JsError where
  | tagged (message : String) (status : Nat)
  | untagged (message : String)
deriving DecidableEq, Repr

/-- User record (design document section 3): unique id, e-mail, optional
password hash (absent for identity-provider-only accounts), display name. -/
structure User where
  id : String
  email : String
  password_hash : Option String
  name : String
deriving DecidableEq, Repr

/-- Session row (design document section 3): one row per issued refresh
token.  The backing store is schemaless, so the token identifier and the
refresh-token hash are nullable at the row level; the design demands that
no operation ever writes a row with either missing. -/
structure Session where
  id : Nat
  user_id : Option String
  jwt_id : Option String
  ip : String
  user_agent : String
  refresh_hash : Option String
  revoked_at : Option Nat
deriving DecidableEq, Repr

/-- The durable session store plus its id generator. -/
structure Store where
  sessions : List Session
  nextId : Nat
deriving DecidableEq, Repr

/-- Modelled from the spec: a refresh token (section 4.2) is a signed
structure carrying the user id (`sub`), the token identifier (`jti`) and
an issue time; `valid` abstracts "the signature checks out under the
service key and the expiry has not passed at the time of presentation".
The subject is an `Option` because a JavaScript payload field holding
`undefined` is dropped by JSON serialization when the token is signed
(this happens on the callback's denied-assertion path). -/
structure RefreshToken where
  sub : Option String
  jti : String
  iat : Nat
  valid : Bool
deriving DecidableEq, Repr

/-- Modelled from the spec: an access token (section 4.2) carries the
user id and e-mail; `valid` abstracts signature and expiry validity.
Both payload fields are `Option`s for the same reason as
`RefreshToken.sub`. -/
structure AccessToken where
  sub : Option String
  email : Option String
  valid : Bool
deriving DecidableEq, Repr

/-- Payload recovered by verifying a refresh token. -/
structure RefreshPayload where
  sub : Option String
  jti : String
deriving DecidableEq, Repr

/-- Payload recovered by verifying an access token. -/
structure AccessPayload where
  sub : Option String
  email : Option String
deriving DecidableEq, Repr

/-- Modelled from the spec: `signRefreshToken` (section 4.2) signs a
payload `{sub, jti}`; the result verifies successfully.  An absent
(`undefined`) subject is signed as a payload without a `sub` field. -/
def signRefreshToken (sub : Option String) (jti : String) (iat : Nat) :
    RefreshToken :=
  { sub := sub, jti := jti, iat := iat, valid := true }

/-- Modelled from the spec: `signAccessToken` (section 4.2) signs a
payload `{sub, email}`; the result verifies successfully. -/
def signAccessToken (sub email : Option String) : AccessToken :=
  { sub := sub, email := email, valid := true }

/-- Modelled from the spec: `verifyRefreshToken` (section 4.2) recovers
the payload of a valid token and throws a (status-less) JWT library error
on bad signature, expiry or malformed structure. -/
def verifyRefreshToken (t : RefreshToken) : Except JsError RefreshPayload :=
  if t.valid then .ok { sub := t.sub, jti := t.jti }
  else .error (.untagged "invalid token")

/-- Modelled from the spec: `verifyAccessToken` (section 4.2), same
contract as `verifyRefreshToken`. -/
def verifyAccessToken (t : AccessToken) : Except JsError AccessPayload :=
  if t.valid then .ok { sub := t.sub, email := t.email }
  else .error (.untagged "invalid token")

/-- Injective serialization of a possibly-absent payload field. -/
def optStr : Option String → String
  | some s => "s" ++ s
  | none => "u"

/-- Modelled from the spec: `hashToken` (`utils/crypto`) is a
deterministic one-way hash of the serialized token; two tokens hash alike
exactly when their serializations agree (collision-freeness abstracted as
injectivity of the encoding). -/
def hashToken (t : RefreshToken) : String :=
  "h#" ++ optStr t.sub ++ "#" ++ t.jti ++ "#" ++ toString t.iat ++
    (if t.valid then "#1" else "#0")

/-- Modelled from the spec: `bcrypt.compare` via the Credential Verifier
contract (section 4.1) — boolean match of a plaintext password against a
stored salted hash, false (never a throw) on malformed stored hash.  The
stored hash of password `p` is modelled as the string `"bcrypt$" ++ p`. -/
def bcryptCompare (password stored : String) : Bool :=
  stored == "bcrypt$" ++ password

/-- Character-wise lowering of a string (the executable spelling of
`String.toLower`). -/
def lowerStr (s : String) : String := String.mk (s.data.map Char.toLower)

/-- Modelled from the spec: `findUserByEmail` (`models/userModel`),
case-insensitive unique e-mail lookup (section 3). -/
def findUserByEmail (users : List User) (email : String) : Option User :=
  users.find? (fun u => lowerStr u.email == lowerStr email)

/-- Modelled from the spec: `findUserById` (`models/userModel`).  The
lookup key is the possibly-absent subject of a token payload; an absent
(`undefined`) id matches no user record. -/
def findUserById (users : List User) (id : Option String) : Option User :=
  users.find? (fun u => some u.id == id)

/-- Modelled from the spec: `findSessionByJti` (`models/sessionModel`,
section 4.3) — lookup of the session row by token identifier. -/
def findSessionByJti (st : Store) (jti : String) : Option Session :=
  st.sessions.find? (fun s => s.jwt_id == some jti)

/-- Modelled from the spec: `createSession` (section 4.3) — inserts a new
active session, failing with `Conflict` when the token identifier already
exists (the store's uniqueness safety net).  The owning user id may be
absent (an `undefined` field in the inserted document is dropped, leaving
a row without a user id). -/
def createSession (st : Store) (userId : Option String)
    (jti ip userAgent refreshHash : String) :
    Except JsError Store :=
  if st.sessions.any (fun s => s.jwt_id == some jti) then
    .error (.tagged "Conflict" 409)
  else
    .ok { sessions := st.sessions ++
            [{ id := st.nextId, user_id := userId, jwt_id := some jti,
               ip := ip, user_agent := userAgent,
               refresh_hash := some refreshHash, revoked_at := none }],
          nextId := st.nextId + 1 }

/-- Modelled from the spec: `revokeSession` (section 4.3) — sets the
revocation timestamp on the row with the given id; idempotent, revoking
an already-revoked session is a no-op. -/
def revokeSession (st : Store) (sessionId : Nat) (now : Nat) : Store :=
  { st with sessions := st.sessions.map (fun s =>
      if s.id == sessionId && s.revoked_at.isNone then
        { s with revoked_at := some now }
      else s) }

/-- Request metadata captured at login (`meta.ip`, `meta.user_agent`). -/
structure Meta where
  ip : String
  user_agent : String
deriving DecidableEq, Repr

/-- The `{user, access, refresh}` object returned by `loginWithPassword`
and `refreshSession`. -/
structure AuthResult where
  user : User
  access : AccessToken
  refresh : RefreshToken
deriving DecidableEq, Repr

/-- The `Error('Invalid credentials')` with `status = 401` thrown by
`loginWithPassword`. -/
def invalidCredentialsErr : JsError := .tagged "Invalid credentials" 401

/-- The `Error('Session revoked')` with `status = 401` thrown by
`refreshSession`. -/
def sessionRevokedErr : JsError := .tagged "Session revoked" 401

/-- The `Error('Invalid refresh token')` with `status = 401` thrown by
`refreshSession`. -/
def invalidTokenErr : JsError := .tagged "Invalid refresh token" 401

/-- The `TypeError` raised by dereferencing a property of `undefined`. -/
def nullDerefErr : JsError :=
  .untagged "TypeError: cannot read properties of undefined"

/-- Embedding of `loginWithPassword(email, password, meta)` from
`authService.js` lines 20–48.  The fresh random token identifier produced
by `cryptoRandomId()` and the signing clock enter as the parameters
`jti` and `now`.  Returns the store as of return or throw, paired with
the outcome. -/
def loginWithPassword (users : List User) (st : Store)
    (email password : String) (meta : Meta) (jti : String) (now : Nat) :
    Store × Except JsError AuthResult :=
  match findUserByEmail users email with
  | none => (st, .error invalidCredentialsErr)
  | some user =>
    match user.password_hash with
    | none => (st, .error invalidCredentialsErr)
    | some ph =>
      if bcryptCompare password ph then
        let access := signAccessToken (some user.id) (some user.email)
        let refresh := signRefreshToken (some user.id) jti now
        match createSession st (some user.id) jti meta.ip meta.user_agent
            (hashToken refresh) with
        | .error e => (st, .error e)
        | .ok st' => (st', .ok { user := user, access := access,
                                 refresh := refresh })
      else (st, .error invalidCredentialsErr)

/-- Local context `refreshSession` holds after its read phase: the session
row it looked up and the user record it dereferenced. -/
structure RefreshCtx where
  session : Session
  user : User
deriving DecidableEq, Repr

/-- The read/check phase of `refreshSession` (`authService.js` lines
51–63): verify the token, look up the session by the embedded `jti`,
reject absent/revoked sessions and hash mismatches, fetch the user.  The
user lookup result is dereferenced (`user.id`) without a null check, so
an absent user surfaces as a `TypeError`, not a tagged 401. -/
def refreshReads (users : List User) (st : Store) (tok : RefreshToken) :
    Except JsError RefreshCtx :=
  match verifyRefreshToken tok with
  | .error e => .error e
  | .ok payload =>
    match findSessionByJti st payload.jti with
    | none => .error sessionRevokedErr
    | some session =>
      if session.revoked_at.isSome then .error sessionRevokedErr
      else if session.refresh_hash ≠ some (hashToken tok) then
        .error invalidTokenErr
      else
        match findUserById users payload.sub with
        | none => .error nullDerefErr
        | some user => .ok { session := session, user := user }

/-- The write phase of `refreshSession` (`authService.js` lines 64–77):
sign the new pair, revoke the old session, then create the new session
carrying forward the old row's IP and user-agent.  `newJti` is the fresh
`cryptoRandomId()` value. -/
def refreshWrites (st : Store) (ctx : RefreshCtx) (newJti : String)
    (now : Nat) : Store × Except JsError AuthResult :=
  let access := signAccessToken (some ctx.user.id) (some ctx.user.email)
  let refresh := signRefreshToken (some ctx.user.id) newJti now
  let st1 := revokeSession st ctx.session.id now
  match createSession st1 (some ctx.user.id) newJti ctx.session.ip
      ctx.session.user_agent (hashToken refresh) with
  | .error e => (st1, .error e)
  | .ok st2 => (st2, .ok { user := ctx.user, access := access,
                           refresh := refresh })

/-- Embedding of `refreshSession(refreshToken)` from `authService.js`
lines 50–78: the read/check phase followed by the write phase.  On a
read-phase throw the store is untouched. -/
def refreshSession (users : List User) (st : Store) (tok : RefreshToken)
    (newJti : String) (now : Nat) : Store × Except JsError AuthResult :=
  match refreshReads users st tok with
  | .error e => (st, .error e)
  | .ok ctx => refreshWrites st ctx newJti now

/-- Outcome of the request-authenticator middleware: either a
`401 {error: 'Unauthorized'}` response or the resolved user attached to
the request context. -/
inductive AuthOutcome where
  | unauthorized
  | authed (user : User)
deriving DecidableEq, Repr

/-- Embedding of `auth(req, res, next)` from `middlewares/auth.js`.  The
process state (user table and session store) is passed explicitly; the
middleware reads the `access_token` cookie (`none` models an absent or
empty cookie), and any exception from `verifyAccessToken` lands in the
`catch` that returns 401.  The session store is part of the state but the
source never consults it. -/
def auth (users : List User) (st : Store) (cookie : Option AccessToken) :
    AuthOutcome :=
  match cookie with
  | none => .unauthorized
  | some tok =>
    match verifyAccessToken tok with
    | .error _ => .unauthorized
    | .ok payload =>
      match findUserById users payload.sub with
      | none => .unauthorized
      | some user => .authed user

/-- Observable outcome of the `googleCallback` HTTP handler:
`nextErr` forwards the provider error to the framework's error-handling
middleware via `next(err)`; `thrown` is an exception escaping the handler
(no response written by this code); `redirect` is a redirect response,
recording the token-pair cookies set on it. -/
inductive CallbackOutcome where
  | nextErr (message : String)
  | thrown (e : JsError)
  | redirect (url : String) (accessCookie : AccessToken)
      (refreshCookie : RefreshToken)
deriving DecidableEq, Repr

/-- Embedding of `googleCallback` from the OAuth controller.  The
passport verification result enters as `err` (provider error, if any) and
`user?` (`none` models `user = false`, the denied-assertion case).  On a
provider error the code runs `return next(err)` and nothing else.
Otherwise it proceeds unconditionally: the property reads `user.id` and
`user.email` evaluate to `undefined` when `user` is the boolean `false`
(JavaScript boxes the primitive; no exception is raised), modelled as
`user?.map` — so even a denied assertion signs a token pair (with an
absent subject), persists a session row (with no user id), sets both
cookies and redirects to `APP_URL + '/notebooks'`.  A rejection from the
awaited `createSession` escapes the async callback as an exception. -/
def googleCallback (err : Option String) (user? : Option User) (st : Store)
    (ip userAgent jti : String) (now : Nat) (appUrl : String) :
    Store × CallbackOutcome :=
  match err with
  | some e => (st, .nextErr e)
  | none =>
    let sub := user?.map (fun u => u.id)
    let email := user?.map (fun u => u.email)
    let access := signAccessToken sub email
    let refresh := signRefreshToken sub jti now
    match createSession st sub jti ip userAgent (hashToken refresh) with
    | .error e => (st, .thrown e)
    | .ok st' => (st', .redirect (appUrl ++ "/notebooks") access refresh)

/-- A session row is complete when it carries both a token identifier and
a refresh-token hash — the never-half-written-session property of sections 5
and 7. -/
def completeRow (s : Session) : Bool :=
  s.jwt_id.isSome && s.refresh_hash.isSome

/-- Every row of the store is complete. -/
def storeWF (st : Store) : Bool :=
  st.sessions.all completeRow

/-! Concrete instances used by witnesses and counterexamples. -/

/-- A password user. -/
def u1 : User :=
  { id := "u1", email := "a@x.com", password_hash := some "bcrypt$correct",
    name := "A" }

/-- A one-user user table. -/
def users1 : List User := [u1]

/-- A refresh token issued to `u1` with identifier `j0` at time 5. -/
def tok0 : RefreshToken := signRefreshToken (some "u1") "j0" 5

/-- The active session bound to `tok0`. -/
def s0 : Session :=
  { id := 0, user_id := some "u1", jwt_id := some "j0", ip := "1.2.3.4",
    user_agent := "ua0", refresh_hash := some (hashToken tok0),
    revoked_at := none }

/-- A store holding exactly the session of `tok0`. -/
def st1 : Store := { sessions := [s0], nextId := 1 }

/-- The empty store. -/
def stEmpty : Store := { sessions := [], nextId := 0 }

/-- The context `refreshSession`'s read phase produces on `st1`/`tok0`. -/
def ctx0 : RefreshCtx := { session := s0, user := u1 }

/-- The session row a successful refresh of `tok0` on `st1` creates. -/
def s1new : Session :=
  { id := 1, user_id := some "u1", jwt_id := some "j1", ip := "1.2.3.4",
    user_agent := "ua0",
    refresh_hash := some (hashToken (signRefreshToken (some "u1") "j1" 10)),
    revoked_at := none }

/-- The store after a successful refresh of `tok0` on `st1` with fresh
identifier `j1` at time 10: the old row revoked, the new row appended. -/
def stAfter : Store :=
  { sessions := [{ s0 with revoked_at := some 10 }, s1new], nextId := 2 }

/-- The `{user, access, refresh}` result of that refresh. -/
def resAfter : AuthResult :=
  { user := u1, access := signAccessToken (some "u1") (some "a@x.com"),
    refresh := signRefreshToken (some "u1") "j1" 10 }

/-- The store after `u1` logs in on the empty store with fresh
identifier `jX` at time 7. -/
def stLogin : Store :=
  { sessions := [{ id := 0, user_id := some "u1", jwt_id := some "jX",
                   ip := "ip", user_agent := "ua",
                   refresh_hash :=
                     some (hashToken (signRefreshToken (some "u1") "jX" 7)),
                   revoked_at := none }],
    nextId := 1 }

/-- The `{user, access, refresh}` result of that login. -/
def resLogin : AuthResult :=
  { user := u1, access := signAccessToken (some "u1") (some "a@x.com"),
    refresh := signRefreshToken (some "u1") "jX" 7 }

/-! Helper lemmas about the store operations. -/

lemma find?_map_of_pred_inv {α : Type} (f : α → α) (p : α → Bool)
    (h : ∀ x, p (f x) = p x) :
    ∀ l : List α, (l.map f).find? p = (l.find? p).map f := by
  intro l
  induction l with
  | nil => rfl
  | cons a t ih =>
    cases hpa : p a with
    | true => simp [List.find?_cons, h a, hpa]
    | false => simp [List.find?_cons, h a, hpa, ih]

lemma revoke_fun_jti (sid now : Nat) (j : String) (x : Session) :
    (((if x.id == sid && x.revoked_at.isNone then
          { x with revoked_at := some now } else x).jwt_id) == some j)
      = (x.jwt_id == some j) := by
  split <;> rfl

/-- Revoking a session does not change which row a `jti` lookup finds;
the found row is the image of the original one under the revocation
update. -/
lemma findSessionByJti_revokeSession (st : Store) (sid now : Nat)
    (j : String) :
    findSessionByJti (revokeSession st sid now) j
      = (findSessionByJti st j).map (fun x =>
          if x.id == sid && x.revoked_at.isNone then
            { x with revoked_at := some now } else x) := by
  unfold findSessionByJti revokeSession
  exact find?_map_of_pred_inv _ _ (revoke_fun_jti sid now j) st.sessions

/-- Anatomy of a successful `loginWithPassword` run: the user was found
by e-mail, carried a password hash matching the password, the fresh
identifier collided with no stored row, and the result store appends
exactly the one new session row. -/
lemma loginWithPassword_ok_elim {users : List User} {st : Store}
    {email password : String} {meta : Meta} {jti : String} {now : Nat}
    {st' : Store} {res : AuthResult}
    (h : loginWithPassword users st email password meta jti now
          = (st', .ok res)) :
    ∃ u ph, findUserByEmail users email = some u
      ∧ u.password_hash = some ph
      ∧ bcryptCompare password ph = true
      ∧ res = { user := u,
                access := signAccessToken (some u.id) (some u.email),
                refresh := signRefreshToken (some u.id) jti now }
      ∧ st.sessions.any (fun x => x.jwt_id == some jti) = false
      ∧ st' = { sessions := st.sessions ++
                  [{ id := st.nextId, user_id := some u.id,
                     jwt_id := some jti,
                     ip := meta.ip, user_agent := meta.user_agent,
                     refresh_hash :=
                       some (hashToken
                         (signRefreshToken (some u.id) jti now)),
                     revoked_at := none }],
                nextId := st.nextId + 1 } := by
  unfold loginWithPassword createSession at h
  split at h
  · simp at h
  · rename_i u hu
    split at h
    · simp at h
    · rename_i ph hp
      split at h
      · rename_i hc
        split at h
        · simp at h
        · rename_i ha
          simp only [Prod.mk.injEq, Except.ok.injEq] at h
          exact ⟨u, ph, hu, hp, hc, h.2.symm, by simpa using ha, h.1.symm⟩
      · simp at h

/-- A token that verifies is a valid one and yields its own payload. -/
lemma verifyRefreshToken_ok_elim {tok : RefreshToken}
    {payload : RefreshPayload}
    (h : verifyRefreshToken tok = .ok payload) :
    tok.valid = true ∧ payload = { sub := tok.sub, jti := tok.jti } := by
  unfold verifyRefreshToken at h
  split at h
  · rename_i hv
    simp only [Except.ok.injEq] at h
    exact ⟨hv, h.symm⟩
  · simp at h

/-- Anatomy of a successful read phase of `refreshSession`: the token is
valid, the session it names is present, active and hash-consistent, and
the user record exists. -/
lemma refreshReads_ok_elim {users : List User} {st : Store}
    {tok : RefreshToken} {ctx : RefreshCtx}
    (h : refreshReads users st tok = .ok ctx) :
    tok.valid = true
      ∧ findSessionByJti st tok.jti = some ctx.session
      ∧ ctx.session.revoked_at = none
      ∧ ctx.session.refresh_hash = some (hashToken tok)
      ∧ findUserById users tok.sub = some ctx.user := by
  unfold refreshReads at h
  split at h
  · simp at h
  · rename_i payload hv
    obtain ⟨hvalid, hpay⟩ := verifyRefreshToken_ok_elim hv
    subst hpay
    split at h
    · simp at h
    · rename_i s hs
      split at h
      · simp at h
      · rename_i hrev
        split at h
        · simp at h
        · rename_i hhash
          split at h
          · simp at h
          · rename_i u hu
            simp only [Except.ok.injEq] at h
            subst h
            refine ⟨hvalid, hs, ?_, ?_, hu⟩
            · simpa using hrev
            · simpa using hhash

/-- Anatomy of a successful write phase of `refreshSession`: the fresh
identifier collides with nothing in the revoked store, and the result
store is the revoked store plus exactly the one new row carrying forward
the old row's IP and user-agent. -/
lemma refreshWrites_ok_elim {st : Store} {ctx : RefreshCtx}
    {newJti : String} {now : Nat} {st' : Store} {res : AuthResult}
    (h : refreshWrites st ctx newJti now = (st', .ok res)) :
    res = { user := ctx.user,
            access := signAccessToken (some ctx.user.id) (some ctx.user.email),
            refresh := signRefreshToken (some ctx.user.id) newJti now }
      ∧ (revokeSession st ctx.session.id now).sessions.any
          (fun x => x.jwt_id == some newJti) = false
      ∧ st' = { sessions := (revokeSession st ctx.session.id now).sessions ++
                  [{ id := st.nextId, user_id := some ctx.user.id,
                     jwt_id := some newJti,
                     ip := ctx.session.ip, user_agent := ctx.session.user_agent,
                     refresh_hash := some
                       (hashToken
                         (signRefreshToken (some ctx.user.id) newJti now)),
                     revoked_at := none }],
                nextId := st.nextId + 1 } := by
  unfold refreshWrites createSession at h
  dsimp only at h
  split at h
  · simp at h
  · rename_i st2 ha
    split at ha
    · simp at ha
    · rename_i hany
      simp only [Except.ok.injEq] at ha
      simp only [Prod.mk.injEq, Except.ok.injEq] at h
      subst ha
      exact ⟨h.2.symm, by simpa using hany, h.1.symm⟩

/-- `refreshSession` is the read phase followed by the write phase. -/
lemma refreshSession_eq (users : List User) (st : Store)
    (tok : RefreshToken) (newJti : String) (now : Nat) :
    refreshSession users st tok newJti now
      = match refreshReads users st tok with
        | .error e => (st, .error e)
        | .ok ctx => refreshWrites st ctx newJti now := rfl

/-- Anatomy of a successful `refreshSession` run. -/
lemma refreshSession_ok_elim {users : List User} {st : Store}
    {tok : RefreshToken} {newJti : String} {now : Nat} {st' : Store}
    {res : AuthResult}
    (h : refreshSession users st tok newJti now = (st', .ok res)) :
    ∃ s u, tok.valid = true
      ∧ findSessionByJti st tok.jti = some s
      ∧ s.revoked_at = none
      ∧ s.refresh_hash = some (hashToken tok)
      ∧ findUserById users tok.sub = some u
      ∧ res = { user := u,
                access := signAccessToken (some u.id) (some u.email),
                refresh := signRefreshToken (some u.id) newJti now }
      ∧ (revokeSession st s.id now).sessions.any
          (fun x => x.jwt_id == some newJti) = false
      ∧ st' = { sessions := (revokeSession st s.id now).sessions ++
                  [{ id := st.nextId, user_id := some u.id,
                     jwt_id := some newJti,
                     ip := s.ip, user_agent := s.user_agent,
                     refresh_hash := some
                       (hashToken
                         (signRefreshToken (some u.id) newJti now)),
                     revoked_at := none }],
                nextId := st.nextId + 1 } := by
  rw [refreshSession_eq] at h
  split at h
  · simp at h
  · rename_i ctx hr
    obtain ⟨hvalid, hs, hrev, hhash, hu⟩ := refreshReads_ok_elim hr
    obtain ⟨hres, hany, hst⟩ := refreshWrites_ok_elim h
    exact ⟨ctx.session, ctx.user, hvalid, hs, hrev, hhash, hu, hres,
      hany, hst⟩

/-- `createSession` only ever appends a row carrying both a token
identifier and a refresh hash. -/
lemma storeWF_createSession {st st' : Store} {uid : Option String}
    {jti ip ua rh : String}
    (hwf : storeWF st = true)
    (hc : createSession st uid jti ip ua rh = .ok st') :
    storeWF st' = true := by
  unfold createSession at hc
  split at hc
  · simp at hc
  · simp only [Except.ok.injEq] at hc
    subst hc
    unfold storeWF at hwf ⊢
    simp [List.all_append, hwf, completeRow]

/-- `revokeSession` touches only revocation timestamps, never the token
identifier or the refresh hash. -/
lemma storeWF_revokeSession {st : Store} (sid now : Nat)
    (hwf : storeWF st = true) :
    storeWF (revokeSession st sid now) = true := by
  unfold storeWF at hwf ⊢
  unfold revokeSession
  dsimp only
  rw [List.all_eq_true] at hwf ⊢
  intro x hx
  obtain ⟨y, hy, hxy⟩ := List.mem_map.mp hx
  subst hxy
  have hyc := hwf y hy
  unfold completeRow at hyc ⊢
  split
  · simpa using hyc
  · exact hyc

/-! Claim theorems. -/

/-- C3: every failing login — unknown e-mail, identity-provider-only
account without a stored password hash, or password mismatch — produces
the literally identical `Invalid credentials` error with status 401, and
the store (hence the set of sessions) is returned unchanged, so the
caller cannot distinguish the three cases and no session is created. -/
theorem login_failure_indistinguishable
    (users : List User) (st : Store) (email password : String)
    (meta : Meta) (jti : String) (now : Nat)
    (h : findUserByEmail users email = none
        ∨ (∃ u, findUserByEmail users email = some u
            ∧ u.password_hash = none)
        ∨ (∃ u ph, findUserByEmail users email = some u
            ∧ u.password_hash = some ph
            ∧ bcryptCompare password ph = false)) :
    loginWithPassword users st email password meta jti now
      = (st, .error invalidCredentialsErr) := by
  rcases h with h | ⟨u, hu, hp⟩ | ⟨u, ph, hu, hp, hc⟩
  · simp [loginWithPassword, h]
  · simp [loginWithPassword, hu, hp]
  · simp [loginWithPassword, hu, hp, hc]

/-- Witness for C3 at a concrete input: the e-mail `b@x.com` is unknown
in `users1`, and login with it fails with the invalid-credentials error
leaving the store untouched. -/
theorem login_failure_indistinguishable_witness :
    loginWithPassword users1 st1 "b@x.com" "pw" ⟨"ip", "ua"⟩ "jX" 7
      = (st1, .error invalidCredentialsErr) :=
  login_failure_indistinguishable users1 st1 "b@x.com" "pw" ⟨"ip", "ua"⟩
    "jX" 7 (Or.inl (by decide))

/-- C8: every session ever written to the store — by password login, by
refresh rotation, or by the identity-provider callback — carries both a
token identifier and a refresh-token hash: each of the three operations
preserves row completeness of the store it returns, whether it succeeds
or throws. -/
theorem ops_write_complete_sessions
    (users : List User) (st : Store) (email password : String)
    (meta : Meta) (jtiL : String) (nowL : Nat) (tok : RefreshToken)
    (jtiR : String) (nowR : Nat) (err : Option String)
    (user? : Option User) (ip ua jtiG : String) (nowG : Nat)
    (appUrl : String)
    (hwf : storeWF st = true) :
    storeWF (loginWithPassword users st email password meta jtiL nowL).1
        = true
      ∧ storeWF (refreshSession users st tok jtiR nowR).1 = true
      ∧ storeWF (googleCallback err user? st ip ua jtiG nowG appUrl).1
          = true := by
  refine ⟨?_, ?_, ?_⟩
  · unfold loginWithPassword
    split
    · exact hwf
    · rename_i user hu
      split
      · exact hwf
      · rename_i ph hp
        split
        · dsimp only
          cases hcs : createSession st (some user.id) jtiL meta.ip
              meta.user_agent
              (hashToken (signRefreshToken (some user.id) jtiL nowL)) with
          | error e => simp only [hcs]; exact hwf
          | ok st2 => simp only [hcs]; exact storeWF_createSession hwf hcs
        · exact hwf
  · rw [refreshSession_eq]
    split
    · exact hwf
    · rename_i ctx hr
      have hrv := storeWF_revokeSession ctx.session.id nowR hwf
      unfold refreshWrites
      dsimp only
      cases hcs : createSession (revokeSession st ctx.session.id nowR)
          (some ctx.user.id) jtiR ctx.session.ip ctx.session.user_agent
          (hashToken
            (signRefreshToken (some ctx.user.id) jtiR nowR)) with
      | error e => simp only [hcs]; exact hrv
      | ok st2 => simp only [hcs]; exact storeWF_createSession hrv hcs
  · unfold googleCallback
    split
    · exact hwf
    · dsimp only
      cases hcs : createSession st (user?.map (fun u => u.id)) jtiG ip ua
          (hashToken (signRefreshToken (user?.map (fun u => u.id))
            jtiG nowG)) with
      | error e => simp only [hcs]; exact hwf
      | ok st2 => simp only [hcs]; exact storeWF_createSession hwf hcs

/-- Witness for C8 at concrete inputs: the store `st1` is row-complete,
and each of the three operations applied to it returns a row-complete
store — the callback instantiated at the denied assertion, whose
user-less session write is still a complete row. -/
theorem ops_write_complete_sessions_witness :
    storeWF (loginWithPassword users1 st1 "a@x.com" "correct"
        ⟨"ip", "ua"⟩ "jX" 7).1 = true
      ∧ storeWF (refreshSession users1 st1 tok0 "j1" 10).1 = true
      ∧ storeWF (googleCallback none none st1 "ip" "ua" "j9" 3
          "http://app").1 = true :=
  ops_write_complete_sessions users1 st1 "a@x.com" "correct" ⟨"ip", "ua"⟩
    "jX" 7 tok0 "j1" 10 none none "ip" "ua" "j9" 3 "http://app" rfl

/-- C9: under the revoke-then-create sequence with only per-operation
(read-committed) atomicity, two concurrent refreshes of the identical
token can BOTH succeed.  In the schedule where both calls run their
read/check phase before either writes, each read phase sees the active
session `ctx0`; the first write phase then succeeds, the second one's
`revokeSession` is an idempotent no-op and its `createSession` inserts a
fresh identifier that conflicts with nothing — so both calls return new
token pairs and the final store holds two active sessions (`jA` and
`jB`) descended from the one original token, contradicting the
exactly-one-succeeds requirement.  The second conjunct records that the
interleaved phases are exactly the phases `refreshSession` itself is
composed of. -/
theorem concurrent_refresh_both_succeed :
    refreshReads users1 st1 tok0 = .ok ctx0
      ∧ refreshSession users1 st1 tok0 "jA" 10
          = refreshWrites st1 ctx0 "jA" 10
      ∧ (refreshWrites st1 ctx0 "jA" 10).2
          = .ok { user := u1,
                  access := signAccessToken (some "u1") (some "a@x.com"),
                  refresh := signRefreshToken (some "u1") "jA" 10 }
      ∧ (refreshWrites (refreshWrites st1 ctx0 "jA" 10).1 ctx0 "jB" 11).2
          = .ok { user := u1,
                  access := signAccessToken (some "u1") (some "a@x.com"),
                  refresh := signRefreshToken (some "u1") "jB" 11 }
      ∧ (((refreshWrites (refreshWrites st1 ctx0 "jA" 10).1 ctx0
              "jB" 11).1).sessions.filter
            (fun s => s.revoked_at.isNone)).map (fun s => s.jwt_id)
          = [some "jA", some "jB"] :=
  ⟨rfl, rfl, rfl, rfl, rfl⟩

/-- C10: when the refresh token verifies, its session is present, active
and hash-consistent, but the user record named by the token's subject no
longer exists, `refreshSession` throws the untagged null-dereference
`TypeError` — not one of the tagged status-401 errors — and it does so
before `revokeSession` or `createSession` run, so the store is returned
unchanged. -/
theorem refresh_missing_user_throws_untagged
    (users : List User) (st : Store) (tok : RefreshToken)
    (newJti : String) (now : Nat) (payload : RefreshPayload) (s : Session)
    (hv : verifyRefreshToken tok = .ok payload)
    (hs : findSessionByJti st payload.jti = some s)
    (hr : s.revoked_at = none)
    (hh : s.refresh_hash = some (hashToken tok))
    (hu : findUserById users payload.sub = none) :
    refreshSession users st tok newJti now = (st, .error nullDerefErr) := by
  simp [refreshSession, refreshReads, hv, hs, hr, hh, hu]

/-- Witness for C10 at a concrete input: the store `st1` still holds the
active session of `tok0`, but the user table is empty, so refreshing
throws the untagged `TypeError` and leaves the store unchanged. -/
theorem refresh_missing_user_throws_untagged_witness :
    refreshSession [] st1 tok0 "j1" 10 = (st1, .error nullDerefErr) :=
  refresh_missing_user_throws_untagged [] st1 tok0 "j1" 10
    { sub := some "u1", jti := "j0" } s0 rfl rfl rfl rfl rfl

/-- C7 counterexample: at a concrete callback invocation in which the
provider reports the error `access_denied`, the handler does not redirect
to an error state — it forwards the raw error object to the framework via
`next(err)` and creates no session; and at a concrete denied assertion
(`user = false`, so the property reads yield `undefined` without
throwing) the handler does not fail at all: it persists a session row
with no user id and redirects to the post-login destination with both
token cookies set — again no error-state redirect. -/
theorem googleCallback_raw_error_counterexample :
    googleCallback (some "access_denied") none st1 "9.9.9.9" "ua" "j9" 3
        "http://app" = (st1, .nextErr "access_denied")
      ∧ googleCallback none none st1 "9.9.9.9" "ua" "j9" 3 "http://app"
          = ({ sessions := st1.sessions ++
                 [{ id := 1, user_id := none, jwt_id := some "j9",
                    ip := "9.9.9.9", user_agent := "ua",
                    refresh_hash :=
                      some (hashToken (signRefreshToken none "j9" 3)),
                    revoked_at := none }],
               nextId := 2 },
             .redirect "http://app/notebooks" (signAccessToken none none)
               (signRefreshToken none "j9" 3)) :=
  ⟨rfl, rfl⟩

/-- C7 amended: on a provider error the callback handler forwards the
raw error to the framework's error-handling middleware via `next(err)`,
creating no session and performing no redirect; on a denied assertion
(passport delivers `user = false`, whose property reads yield
`undefined` without throwing) the handler does not fail at all — it
signs a token pair with an absent subject, persists a session row with
no user id, sets both cookies and redirects to the application's
post-login destination.  It never redirects to an error state. -/
theorem googleCallback_failure_behaviour
    (st : Store) (e : String) (user? : Option User)
    (ip ua jti : String) (now : Nat) (appUrl : String)
    (hfresh : st.sessions.any (fun s => s.jwt_id == some jti) = false) :
    googleCallback (some e) user? st ip ua jti now appUrl
        = (st, .nextErr e)
      ∧ googleCallback none none st ip ua jti now appUrl
          = ({ sessions := st.sessions ++
                 [{ id := st.nextId, user_id := none, jwt_id := some jti,
                    ip := ip, user_agent := ua,
                    refresh_hash :=
                      some (hashToken (signRefreshToken none jti now)),
                    revoked_at := none }],
               nextId := st.nextId + 1 },
             .redirect (appUrl ++ "/notebooks") (signAccessToken none none)
               (signRefreshToken none jti now)) := by
  constructor
  · rfl
  · unfold googleCallback createSession
    dsimp only
    rw [if_neg (by simp [hfresh])]
    rfl

/-- Witness for the amended C7 at concrete inputs: no row of `st1`
carries the identifier `j9`, so a denied assertion against `st1` writes
the user-less row and redirects to the post-login destination, and a
provider error is forwarded via `next(err)`. -/
theorem googleCallback_failure_behaviour_witness :
    googleCallback (some "denied") none st1 "8.8.8.8" "ua2" "j9" 4
        "http://app" = (st1, .nextErr "denied")
      ∧ googleCallback none none st1 "8.8.8.8" "ua2" "j9" 4 "http://app"
          = ({ sessions := st1.sessions ++
                 [{ id := st1.nextId, user_id := none, jwt_id := some "j9",
                    ip := "8.8.8.8", user_agent := "ua2",
                    refresh_hash :=
                      some (hashToken (signRefreshToken none "j9" 4)),
                    revoked_at := none }],
               nextId := st1.nextId + 1 },
             .redirect ("http://app" ++ "/notebooks")
               (signAccessToken none none)
               (signRefreshToken none "j9" 4)) :=
  googleCallback_failure_behaviour st1 "denied" none "8.8.8.8" "ua2"
    "j9" 4 "http://app" rfl

/-- C1: a refresh token is single-use.  After any successful
`refreshSession` run consumed the token, presenting the very same token
again fails with the `Session revoked` status-401 error (and changes
nothing), because the session the token was bound to was revoked at the
moment of rotation. -/
theorem refresh_token_single_use
    (users : List User) (st : Store) (tok : RefreshToken)
    (jti1 : String) (now1 : Nat) (st' : Store) (res : AuthResult)
    (h : refreshSession users st tok jti1 now1 = (st', .ok res))
    (jti2 : String) (now2 : Nat) :
    refreshSession users st' tok jti2 now2
      = (st', .error sessionRevokedErr) := by
  obtain ⟨s, u, hvalid, hs, hrev, hhash, hu, hres, hany, hst⟩ :=
    refreshSession_ok_elim h
  have hmap := findSessionByJti_revokeSession st s.id now1 tok.jti
  rw [hs, Option.map_some'] at hmap
  have hfs : (if s.id == s.id && s.revoked_at.isNone then
      { s with revoked_at := some now1 } else s)
      = { s with revoked_at := some now1 } := by
    rw [hrev]; simp
  rw [hfs] at hmap
  have hfind : findSessionByJti st' tok.jti
      = some { s with revoked_at := some now1 } := by
    rw [hst]
    unfold findSessionByJti at hmap ⊢
    simp only [List.find?_append, hmap]
    rfl
  simp [refreshSession, refreshReads, verifyRefreshToken, hvalid, hfind]

/-- Witness for C1 at a concrete input: refreshing `tok0` on `st1`
succeeds and produces `stAfter`; replaying `tok0` against `stAfter`
fails with the session-revoked error and leaves the store unchanged. -/
theorem refresh_token_single_use_witness :
    refreshSession users1 stAfter tok0 "j2" 11
      = (stAfter, .error sessionRevokedErr) :=
  refresh_token_single_use users1 st1 tok0 "j1" 10 stAfter resAfter rfl
    "j2" 11

/-- C2: for a refresh token that verifies, `refreshSession` fails with
the session-revoked error exactly when the session named by the token's
`jti` is absent or carries a revocation timestamp, and fails with the
invalid-refresh-token error exactly when that session is active but its
stored hash differs from the hash of the presented token; both equalities
pin the returned store to the input store, so in either failure no
session is revoked and none is created. -/
theorem refresh_error_cases
    (users : List User) (st : Store) (tok : RefreshToken)
    (newJti : String) (now : Nat)
    (hv : tok.valid = true) :
    (refreshSession users st tok newJti now
        = (st, .error sessionRevokedErr)
      ↔ (findSessionByJti st tok.jti = none
          ∨ ∃ s, findSessionByJti st tok.jti = some s
              ∧ s.revoked_at.isSome))
    ∧ (refreshSession users st tok newJti now
        = (st, .error invalidTokenErr)
      ↔ ∃ s, findSessionByJti st tok.jti = some s
          ∧ s.revoked_at = none
          ∧ s.refresh_hash ≠ some (hashToken tok)) := by
  have hver : verifyRefreshToken tok
      = .ok { sub := tok.sub, jti := tok.jti } := by
    simp [verifyRefreshToken, hv]
  cases hsf : findSessionByJti st tok.jti with
  | none =>
    have hrun : refreshSession users st tok newJti now
        = (st, .error sessionRevokedErr) := by
      simp [refreshSession, refreshReads, hver, hsf]
    rw [hrun]
    exact ⟨by simp, by simp [sessionRevokedErr, invalidTokenErr]⟩
  | some s =>
    cases hra : s.revoked_at with
    | some t =>
      have hrun : refreshSession users st tok newJti now
          = (st, .error sessionRevokedErr) := by
        simp [refreshSession, refreshReads, hver, hsf, hra]
      rw [hrun]
      constructor
      · simp [hra]
      · simp [sessionRevokedErr, invalidTokenErr, hra]
    | none =>
      by_cases hh : s.refresh_hash = some (hashToken tok)
      · cases hu : findUserById users tok.sub with
        | none =>
          have hrun : refreshSession users st tok newJti now
              = (st, .error nullDerefErr) := by
            simp [refreshSession, refreshReads, hver, hsf, hra, hh, hu]
          rw [hrun]
          constructor
          · simp [sessionRevokedErr, nullDerefErr, hra]
          · simp [invalidTokenErr, nullDerefErr, hh]
        | some u =>
          cases hcf : (revokeSession st s.id now).sessions.any
              (fun x => x.jwt_id == some newJti) with
          | true =>
            have hrun : refreshSession users st tok newJti now
                = (revokeSession st s.id now,
                   .error (.tagged "Conflict" 409)) := by
              simp [refreshSession, refreshReads, refreshWrites,
                createSession, hver, hsf, hra, hh, hu, hcf]
            rw [hrun]
            constructor
            · simp [sessionRevokedErr, hra]
            · simp [invalidTokenErr, hh]
          | false =>
            have hrun : (refreshSession users st tok newJti now).2
                = .ok { user := u, access := signAccessToken u.id u.email,
                        refresh := signRefreshToken u.id newJti now } := by
              simp [refreshSession, refreshReads, refreshWrites,
                createSession, hver, hsf, hra, hh, hu, hcf]
            constructor
            · constructor
              · intro he
                rw [he] at hrun
                simp at hrun
              · intro hcond
                rcases hcond with hn | ⟨s', hs', _⟩
                · simp at hn
                · injection hs' with hss
                  subst hss
                  simp_all
            · constructor
              · intro he
                rw [he] at hrun
                simp at hrun
              · intro ⟨s', hs', _, hneq⟩
                injection hs' with hss
                subst hss
                exact absurd hh hneq
      · have hrun : refreshSession users st tok newJti now
            = (st, .error invalidTokenErr) := by
          simp [refreshSession, refreshReads, hver, hsf, hra, hh]
        rw [hrun]
        constructor
        · simp [sessionRevokedErr, invalidTokenErr, hra]
        · simp [hh, hra]

/-- Witness for C2 at a concrete input: the store `stEmpty` holds no
session, so refreshing the valid token `tok0` fails with the
session-revoked error and returns the store unchanged. -/
theorem refresh_error_cases_witness :
    refreshSession users1 stEmpty tok0 "j1" 10
      = (stEmpty, .error sessionRevokedErr) :=
  (refresh_error_cases users1 stEmpty tok0 "j1" 10 rfl).1.mpr
    (Or.inl rfl)

/-- C4: every successful password login resolves the user by e-mail,
uses a token identifier no stored session already carries, persists
exactly one new session (a single appended row) whose `refresh_hash` is
the one-way hash of the returned refresh token, and returns a
`{user, access, refresh}` object whose access token verifies and decodes
to the id and e-mail of the user that logged in. -/
theorem login_success_spec
    (users : List User) (st : Store) (email password : String)
    (meta : Meta) (jti : String) (now : Nat) (st' : Store)
    (res : AuthResult)
    (h : loginWithPassword users st email password meta jti now
          = (st', .ok res)) :
    findUserByEmail users email = some res.user
      ∧ (∀ x ∈ st.sessions, x.jwt_id ≠ some jti)
      ∧ st'.sessions = st.sessions ++
          [{ id := st.nextId, user_id := some res.user.id,
             jwt_id := some jti,
             ip := meta.ip, user_agent := meta.user_agent,
             refresh_hash := some (hashToken res.refresh),
             revoked_at := none }]
      ∧ st'.nextId = st.nextId + 1
      ∧ verifyAccessToken res.access
          = .ok { sub := some res.user.id,
                  email := some res.user.email } := by
  obtain ⟨u, ph, hu, hp, hc, hres, hany, hst⟩ := loginWithPassword_ok_elim h
  subst hres
  subst hst
  refine ⟨hu, ?_, rfl, rfl, rfl⟩
  intro x hx
  have := List.any_eq_false.mp hany x hx
  simpa using this

/-- Witness for C4 at a concrete input: `u1` logs in on the empty store
with the correct password; the returned store appends exactly the one
complete session row and the returned access token decodes to `u1`. -/
theorem login_success_spec_witness :
    findUserByEmail users1 "a@x.com" = some resLogin.user
      ∧ (∀ x ∈ stEmpty.sessions, x.jwt_id ≠ some "jX")
      ∧ stLogin.sessions = stEmpty.sessions ++
          [{ id := stEmpty.nextId, user_id := some resLogin.user.id,
             jwt_id := some "jX", ip := (⟨"ip", "ua"⟩ : Meta).ip,
             user_agent := (⟨"ip", "ua"⟩ : Meta).user_agent,
             refresh_hash := some (hashToken resLogin.refresh),
             revoked_at := none }]
      ∧ stLogin.nextId = stEmpty.nextId + 1
      ∧ verifyAccessToken resLogin.access
          = .ok { sub := some resLogin.user.id,
                  email := some resLogin.user.email } :=
  login_success_spec users1 stEmpty "a@x.com" "correct" ⟨"ip", "ua"⟩
    "jX" 7 stLogin resLogin rfl

/-- C5: a successful refresh revokes the old session and creates a
brand-new one: the old row is afterwards found with a revocation
timestamp and every other field — in particular its refresh hash —
exactly as before; the new row carries a freshly generated identifier
different from the old one and carries the old row's IP and user-agent
forward unchanged; the store grows by exactly one row and every
unrelated row survives untouched. -/
theorem refresh_rotation_frame
    (users : List User) (st : Store) (tok : RefreshToken)
    (jti : String) (now : Nat) (st' : Store) (res : AuthResult)
    (s : Session)
    (h : refreshSession users st tok jti now = (st', .ok res))
    (hs : findSessionByJti st tok.jti = some s) :
    s.revoked_at = none
      ∧ some jti ≠ s.jwt_id
      ∧ findSessionByJti st' tok.jti
          = some { s with revoked_at := some now }
      ∧ findSessionByJti st' jti
          = some { id := st.nextId, user_id := some res.user.id,
                   jwt_id := some jti, ip := s.ip,
                   user_agent := s.user_agent,
                   refresh_hash := some (hashToken res.refresh),
                   revoked_at := none }
      ∧ st'.sessions.length = st.sessions.length + 1
      ∧ (∀ x ∈ st.sessions, x.id ≠ s.id → x ∈ st'.sessions) := by
  obtain ⟨s', u, hvalid, hs', hrev, hhash, hu, hres, hany, hst⟩ :=
    refreshSession_ok_elim h
  have hss : s = s' := by
    have h2 := hs.symm.trans hs'
    injection h2
  subst hss
  subst hres
  subst hst
  have hmem : s ∈ st.sessions := List.mem_of_find?_eq_some hs
  have hjti : ¬ (s.jwt_id == some jti) = true := by
    have hfmem : (if s.id == s.id && s.revoked_at.isNone then
        { s with revoked_at := some now } else s)
        ∈ (revokeSession st s.id now).sessions := by
      unfold revokeSession
      exact List.mem_map_of_mem _ hmem
    have h3 := List.any_eq_false.mp hany _ hfmem
    rwa [revoke_fun_jti] at h3
  have hmap := findSessionByJti_revokeSession st s.id now tok.jti
  rw [hs, Option.map_some'] at hmap
  have hfs : (if s.id == s.id && s.revoked_at.isNone then
      { s with revoked_at := some now } else s)
      = { s with revoked_at := some now } := by
    rw [hrev]; simp
  rw [hfs] at hmap
  have hnone : (revokeSession st s.id now).sessions.find?
      (fun x => x.jwt_id == some jti) = none :=
    List.find?_eq_none.mpr (List.any_eq_false.mp hany)
  refine ⟨hrev, ?_, ?_, ?_, ?_, ?_⟩
  · exact fun hq => (show s.jwt_id ≠ some jti by simpa using hjti) hq.symm
  · unfold findSessionByJti at hmap ⊢
    dsimp only
    simp only [List.find?_append, hmap]
    rfl
  · unfold findSessionByJti
    dsimp only
    simp only [List.find?_append, hnone]
    simp [List.find?]
  · dsimp only
    simp [revokeSession]
  · intro x hx hneq
    dsimp only
    refine List.mem_append_left _ ?_
    unfold revokeSession
    dsimp only
    have hfx : (if x.id == s.id && x.revoked_at.isNone then
        { x with revoked_at := some now } else x) = x := by
      have h4 : (x.id == s.id) = false := by simpa using hneq
      simp [h4]
    exact hfx ▸ List.mem_map_of_mem _ hx

/-- Witness for C5 at a concrete input: after the successful refresh of
`tok0` on `st1` produced `stAfter`, the old row `j0` is revoked with all
other fields intact, the new row `j1` carries the old IP and user-agent,
and the store grew by exactly one row. -/
theorem refresh_rotation_frame_witness :
    s0.revoked_at = none
      ∧ some "j1" ≠ s0.jwt_id
      ∧ findSessionByJti stAfter tok0.jti
          = some { s0 with revoked_at := some 10 }
      ∧ findSessionByJti stAfter "j1"
          = some { id := st1.nextId, user_id := some resAfter.user.id,
                   jwt_id := some "j1", ip := s0.ip,
                   user_agent := s0.user_agent,
                   refresh_hash := some (hashToken resAfter.refresh),
                   revoked_at := none }
      ∧ stAfter.sessions.length = st1.sessions.length + 1
      ∧ (∀ x ∈ st1.sessions, x.id ≠ s0.id → x ∈ stAfter.sessions) :=
  refresh_rotation_frame users1 st1 tok0 "j1" 10 stAfter resAfter s0
    rfl rfl

/-- C6: the request authenticator's decision is a function of the access
token and the user table only — it is identical across any two session
stores, in particular before and after revoking any session — and it
rejects exactly when the cookie is absent, the token is cryptographically
invalid or expired, or the user named by the payload no longer exists. -/
theorem auth_independent_of_session_store
    (users : List User) (stA stB : Store) (cookie : Option AccessToken)
    (sid now : Nat) :
    auth users stA cookie = auth users stB cookie
      ∧ auth users (revokeSession stA sid now) cookie = auth users stA cookie
      ∧ (auth users stA cookie = .unauthorized
          ↔ (cookie = none ∨ ∃ tok, cookie = some tok
              ∧ (tok.valid = false ∨ findUserById users tok.sub = none))) := by
  refine ⟨rfl, rfl, ?_⟩
  cases cookie with
  | none => simp [auth]
  | some tok =>
    by_cases hv : tok.valid
    · simp only [auth, verifyAccessToken, hv, if_true]
      cases hu : findUserById users tok.sub with
      | none => simp [hu, hv]
      | some u => simp [hu, hv]
    · have hv' : tok.valid = false := by simpa using hv
      simp [auth, verifyAccessToken, hv']

end AuthCore
